import Mathlib

/-!
Shallow embedding of the book-list application:
  - src/Books/types.ts            (Book, BookAddResponse)
  - src/Books/Books.controller.ts (the MobX state container)
  - src/Books/Books.repository.ts (getBooks / getPrivateBooks / addBook)

The async methods of the controller are modelled as explicit state-passing
functions from StoreState to StoreState paired with List Ev, where the event list records,
in program order, every repository invocation, every sub-operation the
controller runs, and every assignment to the isLoading and error fields.
Repository behaviour is a parameter (the Repo structure): each fetch either
resolves to an array, resolves to a non-array JSON value, or throws, and the
add either resolves to a boolean or throws, mirroring the Promise outcomes
the controller can observe.
-/

/-- Book record from src/Books/types.ts: id is optional, assigned
client-side for new books. -/
structure Book where
  id : Option Int
  name : String
  author : String
deriving DecidableEq, Repr

/-- A JavaScript thrown value as seen by the catch blocks of the controller:
either an Error object carrying a message, or any non-Error value. -/
inductive Thrown where
  | errorObj (msg : String)
  | nonError
deriving DecidableEq, Repr

/-- Message extraction performed by the catch blocks:
err instanceof Error ? err.message : fallback. -/
def Thrown.message : Thrown → String → String
  | Thrown.errorObj m, _ => m
  | Thrown.nonError, fb => fb

/-- Outcome of awaiting a repository fetch (getBooks / getPrivateBooks):
the promise resolves to an array, resolves to some non-array value
(null, an object, ...), or rejects with a thrown value. -/
inductive FetchOutcome where
  | resolveArr (bs : List Book)
  | resolveNonArr
  | throwErr (t : Thrown)
deriving DecidableEq, Repr

/-- Outcome of awaiting repository.addBook: resolves to a boolean or
rejects with a thrown value. -/
inductive AddOutcome where
  | resolveOk (b : Bool)
  | throwErr (t : Thrown)
deriving DecidableEq, Repr

/-- The repository dependency injected into createBooksStore
(interface BooksRepository in Books.controller.ts), modelled by the
outcome each of its three operations produces when awaited. -/
structure Repo where
  getBooks : FetchOutcome
  getPrivateBooks : FetchOutcome
  addBook : AddOutcome
deriving DecidableEq, Repr

/-- Observable events emitted while a controller operation runs, in program
order: repository invocations, the controller running one of its own
sub-operations, and assignments to the isLoading / error store fields. -/
inductive Ev where
  | setLoading (b : Bool)
  | setError (e : Option String)
  | callGetBooks
  | callGetPrivateBooks
  | callAddBook (name author : String)
  | runLoadBooks
  | runLoadPrivateCount
deriving DecidableEq, Repr

/-- The repository invocations contained in a trace. -/
def repoCalls : List Ev → List Ev
  | [] => []
  | Ev.callGetBooks :: tr => Ev.callGetBooks :: repoCalls tr
  | Ev.callGetPrivateBooks :: tr => Ev.callGetPrivateBooks :: repoCalls tr
  | Ev.callAddBook n a :: tr => Ev.callAddBook n a :: repoCalls tr
  | Ev.setLoading _ :: tr => repoCalls tr
  | Ev.setError _ :: tr => repoCalls tr
  | Ev.runLoadBooks :: tr => repoCalls tr
  | Ev.runLoadPrivateCount :: tr => repoCalls tr

/-- The sub-operation invocations (the controller running loadBooks or
loadPrivateBooksCount) contained in a trace. -/
def runEvents : List Ev → List Ev
  | [] => []
  | Ev.runLoadBooks :: tr => Ev.runLoadBooks :: runEvents tr
  | Ev.runLoadPrivateCount :: tr => Ev.runLoadPrivateCount :: runEvents tr
  | Ev.callGetBooks :: tr => runEvents tr
  | Ev.callGetPrivateBooks :: tr => runEvents tr
  | Ev.callAddBook _ _ :: tr => runEvents tr
  | Ev.setLoading _ :: tr => runEvents tr
  | Ev.setError _ :: tr => runEvents tr

/-- The successive values assigned to isLoading during a trace. -/
def loadingEvents : List Ev → List Bool
  | [] => []
  | Ev.setLoading b :: tr => b :: loadingEvents tr
  | Ev.setError _ :: tr => loadingEvents tr
  | Ev.callGetBooks :: tr => loadingEvents tr
  | Ev.callGetPrivateBooks :: tr => loadingEvents tr
  | Ev.callAddBook _ _ :: tr => loadingEvents tr
  | Ev.runLoadBooks :: tr => loadingEvents tr
  | Ev.runLoadPrivateCount :: tr => loadingEvents tr

/-- The successive values assigned to error during a trace. -/
def errorEvents : List Ev → List (Option String)
  | [] => []
  | Ev.setError o :: tr => o :: errorEvents tr
  | Ev.setLoading _ :: tr => errorEvents tr
  | Ev.callGetBooks :: tr => errorEvents tr
  | Ev.callGetPrivateBooks :: tr => errorEvents tr
  | Ev.callAddBook _ _ :: tr => errorEvents tr
  | Ev.runLoadBooks :: tr => errorEvents tr
  | Ev.runLoadPrivateCount :: tr => errorEvents tr

/-- Mutable state of the store created by createBooksStore.  viewType is
kept as a String because setViewType validates its argument at runtime
against the two literals "all" and "private". -/
structure StoreState where
  books : List Book
  isLoading : Bool
  error : Option String
  viewType : String
  privateBooksCount : Nat
deriving DecidableEq, Repr

/-- Initial field values of the store (Books.controller.ts lines 39-43). -/
def initialState : StoreState :=
  { books := [], isLoading := false, error := none
    viewType := "all", privateBooksCount := 0 }

/-- Shared tail of the loadBooks method (Books.controller.ts lines 59-72),
applied once the fetch for the current mode has been selected: the result
replaces books when it is an array and is coerced to [] when it is not;
the catch block stores the thrown message (fallback "Failed to load
books") and clears books; the finally block resets isLoading := false.
The argument s1 is the store after the first two assignments of the method and
callEvs records the repository invocation of the selected branch. -/
def loadBooksFinish (s1 : StoreState) (outcome : FetchOutcome) (callEvs : List Ev) :
    StoreState × List Ev :=
  match outcome with
  | FetchOutcome.resolveArr bs =>
      ({ s1 with books := bs, isLoading := false },
        [Ev.runLoadBooks, Ev.setLoading true, Ev.setError none]
          ++ callEvs ++ [Ev.setLoading false])
  | FetchOutcome.resolveNonArr =>
      ({ s1 with books := [], isLoading := false },
        [Ev.runLoadBooks, Ev.setLoading true, Ev.setError none]
          ++ callEvs ++ [Ev.setLoading false])
  | FetchOutcome.throwErr t =>
      ({ s1 with error := some (t.message "Failed to load books")
                 books := [], isLoading := false },
        [Ev.runLoadBooks, Ev.setLoading true, Ev.setError none]
          ++ callEvs
          ++ [Ev.setError (some (t.message "Failed to load books")), Ev.setLoading false])

/-- The loadBooks method (Books.controller.ts lines 49-73): sets
isLoading := true and error := null, awaits getBooks when viewType is
"all" and getPrivateBooks when it is "private" (any other value leaves
loadedBooks as the initial empty array with no call), then finishes with
the shared coercion / catch / finally tail. -/
def loadBooks (repository : Repo) (s : StoreState) : StoreState × List Ev :=
  let s1 := { s with isLoading := true, error := none }
  if s.viewType = "all" then
    loadBooksFinish s1 repository.getBooks [Ev.callGetBooks]
  else if s.viewType = "private" then
    loadBooksFinish s1 repository.getPrivateBooks [Ev.callGetPrivateBooks]
  else
    loadBooksFinish s1 (FetchOutcome.resolveArr []) []

/-- The loadPrivateBooksCount method (Books.controller.ts lines 79-94):
awaits getPrivateBooks and sets privateBooksCount to the length of the
result coerced to an array; a throw sets the count to 0; no other field
is written. -/
def loadPrivateBooksCount (repository : Repo) (s : StoreState) : StoreState × List Ev :=
  match repository.getPrivateBooks with
  | FetchOutcome.resolveArr bs =>
      ({ s with privateBooksCount := bs.length },
        [Ev.runLoadPrivateCount, Ev.callGetPrivateBooks])
  | FetchOutcome.resolveNonArr =>
      ({ s with privateBooksCount := 0 },
        [Ev.runLoadPrivateCount, Ev.callGetPrivateBooks])
  | FetchOutcome.throwErr _ =>
      ({ s with privateBooksCount := 0 },
        [Ev.runLoadPrivateCount, Ev.callGetPrivateBooks])

/-- The addBook method (Books.controller.ts lines 102-130): an empty name
or author sets the validation message and returns before touching
isLoading; otherwise isLoading := true, error := null, the repository add
is awaited, a true result runs loadBooks then loadPrivateBooksCount, a
false result throws an Error whose message the catch stores, a thrown
value is caught and its message stored (fallback "Failed to add book"),
and finally isLoading := false. -/
def addBook (repository : Repo) (name author : String) (s : StoreState) :
    StoreState × List Ev :=
  if name = "" ∨ author = "" then
    ({ s with error := some "Book name and author cannot be empty." },
      [Ev.setError (some "Book name and author cannot be empty.")])
  else
    let s1 := { s with isLoading := true, error := none }
    match repository.addBook with
    | AddOutcome.resolveOk true =>
        let r2 := loadBooks repository s1
        let r3 := loadPrivateBooksCount repository r2.1
        ({ r3.1 with isLoading := false },
          [Ev.setLoading true, Ev.setError none, Ev.callAddBook name author]
            ++ r2.2 ++ r3.2 ++ [Ev.setLoading false])
    | AddOutcome.resolveOk false =>
        ({ s1 with error := some "Repository returned false, book might not have been added."
                   isLoading := false },
          [Ev.setLoading true, Ev.setError none, Ev.callAddBook name author,
            Ev.setError (some "Repository returned false, book might not have been added."),
            Ev.setLoading false])
    | AddOutcome.throwErr t =>
        ({ s1 with error := some (t.message "Failed to add book"), isLoading := false },
          [Ev.setLoading true, Ev.setError none, Ev.callAddBook name author,
            Ev.setError (some (t.message "Failed to add book")), Ev.setLoading false])

/-- The setViewType method (Books.controller.ts lines 136-146): only the
literals "all" and "private" are accepted; an accepted value different
from the current one is stored and loadBooks and loadPrivateBooksCount are
triggered; otherwise nothing happens. -/
def setViewType (repository : Repo) (t : String) (s : StoreState) :
    StoreState × List Ev :=
  if t = "all" ∨ t = "private" then
    if s.viewType ≠ t then
      let s1 := { s with viewType := t }
      let r2 := loadBooks repository s1
      let r3 := loadPrivateBooksCount repository r2.1
      (r3.1, r2.2 ++ r3.2)
    else (s, [])
  else (s, [])

/-- The init method (Books.controller.ts lines 151-154): loadBooks then
loadPrivateBooksCount, both awaited. -/
def storeInit (repository : Repo) (s : StoreState) : StoreState × List Ev :=
  let r1 := loadBooks repository s
  let r2 := loadPrivateBooksCount repository r1.1
  (r2.1, r1.2 ++ r2.2)

/-!
Repository layer (src/Books/Books.repository.ts): identifier generation and
the addBook request/response handling.  Date.now() is modelled by a natural
number of milliseconds and Math.random() * 1000 by a rational in [0, 1000).
-/

/-- The identifier generator (Books.repository.ts lines 45-48):
Math.floor of Date.now() plus Math.random() * 1000. -/
def generateUniqueId (now : Nat) (rand1000 : ℚ) : Int :=
  Int.floor ((now : ℚ) + rand1000)

/-- The JSON body posted by the repository addBook: path together with the
id, name and author fields. -/
structure AddBookRequest where
  path : String
  id : Int
  name : String
  author : String
deriving DecidableEq, Repr

/-- Parsed response body of the add-book POST: null for an empty body, or
an object whose status field may be absent. -/
inductive BookAddDto where
  | nullDto
  | objDto (status : Option String)
deriving DecidableEq, Repr

/-- Truthiness test of Books.repository.ts line 68:
bookAddDto and bookAddDto.status === "ok" give true, anything else false. -/
def dtoAccepted : BookAddDto → Bool
  | BookAddDto.nullDto => false
  | BookAddDto.objDto st => st = some "ok"

/-- The repository addBook (Books.repository.ts lines 57-68): generates a
fresh id, posts (id, name, author) to "/", and resolves to true exactly
when the response body is truthy with status "ok".  The current time and
random draw are inputs; the parsed response is an input. -/
def repoAddBook (name author : String) (now : Nat) (rand1000 : ℚ)
    (resp : BookAddDto) : AddBookRequest × Bool :=
  ({ path := "/", id := generateUniqueId now rand1000
     name := name, author := author },
    dtoAccepted resp)

/-!
Concrete repositories and states used by witnesses and counterexamples.
-/

/-- A sample book for concrete evaluations. -/
def dummyBook : Book := { id := some 1, name := "b", author := "a" }

/-- A repository whose fetches both resolve to arrays and whose add
resolves to true. -/
def repoA : Repo :=
  { getBooks := FetchOutcome.resolveArr [dummyBook]
    getPrivateBooks := FetchOutcome.resolveArr []
    addBook := AddOutcome.resolveOk true }

/-- The repository of the add-book scenario: the add is accepted, the
all-books fetch returns five books and the private fetch three. -/
def repoDune : Repo :=
  { getBooks := FetchOutcome.resolveArr (List.replicate 5 dummyBook)
    getPrivateBooks := FetchOutcome.resolveArr (List.replicate 3 dummyBook)
    addBook := AddOutcome.resolveOk true }

/-- A repository whose add resolves to false. -/
def repoAddFails : Repo :=
  { getBooks := FetchOutcome.resolveArr []
    getPrivateBooks := FetchOutcome.resolveArr []
    addBook := AddOutcome.resolveOk false }

/-- A store state carrying a leftover error message. -/
def staleErrorState : StoreState :=
  { initialState with error := some "previous failure" }

/-!
Helper lemmas about the trace filters and the individual operations.
-/

theorem repoCalls_append (a b : List Ev) :
    repoCalls (a ++ b) = repoCalls a ++ repoCalls b := by
  induction a with
  | nil => rfl
  | cons e tr ih => cases e <;> simp [repoCalls, ih]

theorem runEvents_append (a b : List Ev) :
    runEvents (a ++ b) = runEvents a ++ runEvents b := by
  induction a with
  | nil => rfl
  | cons e tr ih => cases e <;> simp [runEvents, ih]

theorem loadingEvents_append (a b : List Ev) :
    loadingEvents (a ++ b) = loadingEvents a ++ loadingEvents b := by
  induction a with
  | nil => rfl
  | cons e tr ih => cases e <;> simp [loadingEvents, ih]

theorem errorEvents_append (a b : List Ev) :
    errorEvents (a ++ b) = errorEvents a ++ errorEvents b := by
  induction a with
  | nil => rfl
  | cons e tr ih => cases e <;> simp [errorEvents, ih]

theorem loadBooksFinish_isLoading (s1 : StoreState) (o : FetchOutcome)
    (c : List Ev) : (loadBooksFinish s1 o c).1.isLoading = false := by
  cases o <;> rfl

theorem loadBooksFinish_viewType (s1 : StoreState) (o : FetchOutcome)
    (c : List Ev) : (loadBooksFinish s1 o c).1.viewType = s1.viewType := by
  cases o <;> rfl

theorem loadBooksFinish_privateCount (s1 : StoreState) (o : FetchOutcome)
    (c : List Ev) :
    (loadBooksFinish s1 o c).1.privateBooksCount = s1.privateBooksCount := by
  cases o <;> rfl

theorem repoCalls_loadBooksFinish (s1 : StoreState) (o : FetchOutcome)
    (c : List Ev) : repoCalls (loadBooksFinish s1 o c).2 = repoCalls c := by
  cases o <;> simp [loadBooksFinish, repoCalls_append, repoCalls]

theorem runEvents_loadBooksFinish (s1 : StoreState) (o : FetchOutcome)
    (c : List Ev) (hc : runEvents c = []) :
    runEvents (loadBooksFinish s1 o c).2 = [Ev.runLoadBooks] := by
  cases o <;> simp [loadBooksFinish, runEvents_append, runEvents, hc]

theorem loadingEvents_loadBooksFinish (s1 : StoreState) (o : FetchOutcome)
    (c : List Ev) (hc : loadingEvents c = []) :
    loadingEvents (loadBooksFinish s1 o c).2 = [true, false] := by
  cases o <;> simp [loadBooksFinish, loadingEvents_append, loadingEvents, hc]

theorem errorEvents_loadBooksFinish_head (s1 : StoreState) (o : FetchOutcome)
    (c : List Ev) (hc : errorEvents c = []) :
    (errorEvents (loadBooksFinish s1 o c).2).head? = some none := by
  cases o <;> simp [loadBooksFinish, errorEvents_append, errorEvents, hc]

theorem loadBooks_isLoading (repository : Repo) (s : StoreState) :
    (loadBooks repository s).1.isLoading = false := by
  simp only [loadBooks]
  split_ifs <;> exact loadBooksFinish_isLoading _ _ _

theorem loadBooks_viewType (repository : Repo) (s : StoreState) :
    (loadBooks repository s).1.viewType = s.viewType := by
  simp only [loadBooks]
  split_ifs <;> exact loadBooksFinish_viewType _ _ _

theorem loadBooks_privateCount (repository : Repo) (s : StoreState) :
    (loadBooks repository s).1.privateBooksCount = s.privateBooksCount := by
  simp only [loadBooks]
  split_ifs <;> exact loadBooksFinish_privateCount _ _ _

theorem runEvents_loadBooks (repository : Repo) (s : StoreState) :
    runEvents (loadBooks repository s).2 = [Ev.runLoadBooks] := by
  simp only [loadBooks]
  split_ifs <;> exact runEvents_loadBooksFinish _ _ _ rfl

theorem loadingEvents_loadBooks (repository : Repo) (s : StoreState) :
    loadingEvents (loadBooks repository s).2 = [true, false] := by
  simp only [loadBooks]
  split_ifs <;> exact loadingEvents_loadBooksFinish _ _ _ rfl

theorem errorEvents_loadBooks_head (repository : Repo) (s : StoreState) :
    (errorEvents (loadBooks repository s).2).head? = some none := by
  simp only [loadBooks]
  split_ifs <;> exact errorEvents_loadBooksFinish_head _ _ _ rfl

theorem trace_loadPrivateBooksCount (repository : Repo) (s : StoreState) :
    (loadPrivateBooksCount repository s).2 =
      [Ev.runLoadPrivateCount, Ev.callGetPrivateBooks] := by
  cases hg : repository.getPrivateBooks <;> simp [loadPrivateBooksCount, hg]

theorem loadPrivateBooksCount_frame (repository : Repo) (s : StoreState) :
    (loadPrivateBooksCount repository s).1.error = s.error ∧
    (loadPrivateBooksCount repository s).1.books = s.books ∧
    (loadPrivateBooksCount repository s).1.isLoading = s.isLoading ∧
    (loadPrivateBooksCount repository s).1.viewType = s.viewType := by
  cases hg : repository.getPrivateBooks <;> simp [loadPrivateBooksCount, hg]

theorem setViewType_self (repository : Repo) (t : String) (s : StoreState)
    (h : s.viewType = t) : setViewType repository t s = (s, []) := by
  by_cases hv : t = "all" ∨ t = "private" <;>
    simp [setViewType, hv, h]

/-!
Claim theorems.
-/

/-- C1: for a view mode in the set of "all" and "private", loadBooks makes
exactly the repository fetch matching the mode and never the other one; a
fetch resolving to an array replaces books wholesale with error null, a
fetch resolving to a non-array value empties books with no error, a throw
empties books and stores the thrown message (fallback "Failed to load
books"), and isLoading is false on completion. -/
theorem loadBooks_matches_viewType (repository : Repo) (s : StoreState)
    (h : s.viewType = "all" ∨ s.viewType = "private") :
    repoCalls (loadBooks repository s).2 =
      [if s.viewType = "all" then Ev.callGetBooks else Ev.callGetPrivateBooks] ∧
    (∀ bs,
      (if s.viewType = "all" then repository.getBooks else repository.getPrivateBooks) =
        FetchOutcome.resolveArr bs →
      (loadBooks repository s).1.books = bs ∧ (loadBooks repository s).1.error = none) ∧
    ((if s.viewType = "all" then repository.getBooks else repository.getPrivateBooks) =
        FetchOutcome.resolveNonArr →
      (loadBooks repository s).1.books = [] ∧ (loadBooks repository s).1.error = none) ∧
    (∀ t,
      (if s.viewType = "all" then repository.getBooks else repository.getPrivateBooks) =
        FetchOutcome.throwErr t →
      (loadBooks repository s).1.books = [] ∧
      (loadBooks repository s).1.error = some (t.message "Failed to load books")) ∧
    (loadBooks repository s).1.isLoading = false := by
  rcases h with h | h
  · cases hg : repository.getBooks <;>
      simp [loadBooks, loadBooksFinish, h, hg, repoCalls]
  · cases hg : repository.getPrivateBooks <;>
      simp [loadBooks, loadBooksFinish, h, hg, repoCalls]

/-- Witness for C1: in mode "all" against a repository resolving to one
book, loadBooks replaces books with that array and leaves error null. -/
theorem loadBooks_matches_viewType_witness :
    (loadBooks repoA initialState).1.books = [dummyBook] ∧
    (loadBooks repoA initialState).1.error = none :=
  (loadBooks_matches_viewType repoA initialState (Or.inl rfl)).2.1 [dummyBook] rfl

/-- C4: when name or author is empty, addBook stops before any repository
activity, storing the fixed validation message. -/
theorem addBook_empty_input_rejects (repository : Repo) (name author : String)
    (s : StoreState) (h : name = "" ∨ author = "") :
    (addBook repository name author s).1.error =
      some "Book name and author cannot be empty." ∧
    repoCalls (addBook repository name author s).2 = [] := by
  simp only [addBook, if_pos h]
  simp [repoCalls]

/-- Witness for C4 at the empty name. -/
theorem addBook_empty_input_rejects_witness :
    (addBook repoA "" "x" initialState).1.error =
      some "Book name and author cannot be empty." ∧
    repoCalls (addBook repoA "" "x" initialState).2 = [] :=
  addBook_empty_input_rejects repoA "" "x" initialState (Or.inl rfl)

/-- C6: loadPrivateBooksCount leaves error, books, isLoading and viewType
unchanged; it sets privateBooksCount to the length of an array result and
to 0 on a non-array result or a throw. -/
theorem loadPrivateBooksCount_spec (repository : Repo) (s : StoreState) :
    (loadPrivateBooksCount repository s).1.error = s.error ∧
    (loadPrivateBooksCount repository s).1.books = s.books ∧
    (loadPrivateBooksCount repository s).1.isLoading = s.isLoading ∧
    (loadPrivateBooksCount repository s).1.viewType = s.viewType ∧
    (∀ bs, repository.getPrivateBooks = FetchOutcome.resolveArr bs →
      (loadPrivateBooksCount repository s).1.privateBooksCount = bs.length) ∧
    (repository.getPrivateBooks = FetchOutcome.resolveNonArr →
      (loadPrivateBooksCount repository s).1.privateBooksCount = 0) ∧
    (∀ t, repository.getPrivateBooks = FetchOutcome.throwErr t →
      (loadPrivateBooksCount repository s).1.privateBooksCount = 0) := by
  cases hg : repository.getPrivateBooks <;> simp [loadPrivateBooksCount, hg]

/-- Witness for C6: three private books give privateBooksCount 3. -/
theorem loadPrivateBooksCount_spec_witness :
    (loadPrivateBooksCount repoDune initialState).1.privateBooksCount = 3 := by
  have h := (loadPrivateBooksCount_spec repoDune initialState).2.2.2.2.1
    (List.replicate 3 dummyBook) rfl
  simpa using h

/-- C10: on an empty name or author, addBook leaves books, isLoading,
viewType and privateBooksCount exactly as they were and never assigns
isLoading (no loading toggle on the validation-failure path). -/
theorem addBook_empty_input_frame (repository : Repo) (name author : String)
    (s : StoreState) (h : name = "" ∨ author = "") :
    (addBook repository name author s).1.books = s.books ∧
    (addBook repository name author s).1.isLoading = s.isLoading ∧
    (addBook repository name author s).1.viewType = s.viewType ∧
    (addBook repository name author s).1.privateBooksCount = s.privateBooksCount ∧
    loadingEvents (addBook repository name author s).2 = [] := by
  simp only [addBook, if_pos h]
  simp [loadingEvents]

/-- Witness for C10 at the empty author. -/
theorem addBook_empty_input_frame_witness :
    (addBook repoA "x" "" staleErrorState).1.books = staleErrorState.books ∧
    (addBook repoA "x" "" staleErrorState).1.isLoading = staleErrorState.isLoading ∧
    (addBook repoA "x" "" staleErrorState).1.viewType = staleErrorState.viewType ∧
    (addBook repoA "x" "" staleErrorState).1.privateBooksCount =
      staleErrorState.privateBooksCount ∧
    loadingEvents (addBook repoA "x" "" staleErrorState).2 = [] :=
  addBook_empty_input_frame repoA "x" "" staleErrorState (Or.inr rfl)

/-- C2: with non-empty inputs and a repository add resolving to true,
addBook runs exactly one loadBooks followed by exactly one
loadPrivateBooksCount, both awaited in that order (the final state is the
sequential composition of the two reloads from the post-toggle state); in
the concrete scenario of adding Dune by Herbert against a repository
returning five all-books and three private books, the final state has
five books, privateBooksCount three, error null and isLoading false. -/
theorem addBook_success_reloads (repository : Repo) (name author : String)
    (s : StoreState) (hn : name ≠ "") (ha : author ≠ "")
    (hadd : repository.addBook = AddOutcome.resolveOk true) :
    runEvents (addBook repository name author s).2 =
      [Ev.runLoadBooks, Ev.runLoadPrivateCount] ∧
    (addBook repository name author s).1 =
      { (loadPrivateBooksCount repository
          (loadBooks repository { s with isLoading := true, error := none }).1).1
        with isLoading := false } ∧
    (addBook repoDune "Dune" "Herbert" initialState).1.books.length = 5 ∧
    (addBook repoDune "Dune" "Herbert" initialState).1.privateBooksCount = 3 ∧
    (addBook repoDune "Dune" "Herbert" initialState).1.error = none ∧
    (addBook repoDune "Dune" "Herbert" initialState).1.isLoading = false := by
  have hcond : ¬(name = "" ∨ author = "") := not_or.mpr ⟨hn, ha⟩
  refine ⟨?_, ?_, by decide, by decide, by decide, by decide⟩
  · simp only [addBook, if_neg hcond, hadd]
    simp [runEvents_append, runEvents, runEvents_loadBooks, trace_loadPrivateBooksCount]
  · simp only [addBook, if_neg hcond, hadd]

/-- Witness for C2 at the Dune scenario repository. -/
theorem addBook_success_reloads_witness :
    runEvents (addBook repoDune "Dune" "Herbert" initialState).2 =
      [Ev.runLoadBooks, Ev.runLoadPrivateCount] :=
  (addBook_success_reloads repoDune "Dune" "Herbert" initialState
    (by decide) (by decide) rfl).1

/-- C3: setViewType with the current mode changes nothing and makes no
repository call; with the other valid mode it stores the new mode and
triggers one loadBooks and one loadPrivateBooksCount; with a value outside
"all" and "private" it changes nothing and makes no repository call. -/
theorem setViewType_cases (repository : Repo) (t : String) (s : StoreState) :
    (s.viewType = t → setViewType repository t s = (s, [])) ∧
    ((t = "all" ∨ t = "private") → s.viewType ≠ t →
      (setViewType repository t s).1.viewType = t ∧
      runEvents (setViewType repository t s).2 =
        [Ev.runLoadBooks, Ev.runLoadPrivateCount]) ∧
    (t ≠ "all" → t ≠ "private" → setViewType repository t s = (s, [])) := by
  refine ⟨fun h => setViewType_self repository t s h, ?_, ?_⟩
  · intro hv hne
    simp only [setViewType, if_pos hv, if_pos hne]
    constructor
    · rw [(loadPrivateBooksCount_frame repository _).2.2.2, loadBooks_viewType]
    · rw [runEvents_append, runEvents_loadBooks, trace_loadPrivateBooksCount]
      rfl
  · intro h1 h2
    simp [setViewType, h1, h2]

/-- Witness for C3: switching the initial store to "private" stores the
new mode and triggers both reloads. -/
theorem setViewType_cases_witness :
    (setViewType repoA "private" initialState).1.viewType = "private" ∧
    runEvents (setViewType repoA "private" initialState).2 =
      [Ev.runLoadBooks, Ev.runLoadPrivateCount] :=
  (setViewType_cases repoA "private" initialState).2.1 (Or.inr rfl) (by decide)

/-- C5: with non-empty inputs, a repository add resolving to false or
throwing makes addBook store a descriptive message (the internally thrown
message for false, the thrown message or the fallback "Failed to add
book" for a throw) and perform no reload: no sub-operation runs, the only
repository call is the add itself, and books, viewType and
privateBooksCount are unchanged with isLoading false on completion. -/
theorem addBook_failure_no_reload (repository : Repo) (name author : String)
    (s : StoreState) (hn : name ≠ "") (ha : author ≠ "")
    (hfail : repository.addBook ≠ AddOutcome.resolveOk true) :
    (repository.addBook = AddOutcome.resolveOk false →
      (addBook repository name author s).1.error =
        some "Repository returned false, book might not have been added.") ∧
    (∀ t, repository.addBook = AddOutcome.throwErr t →
      (addBook repository name author s).1.error =
        some (t.message "Failed to add book")) ∧
    runEvents (addBook repository name author s).2 = [] ∧
    repoCalls (addBook repository name author s).2 = [Ev.callAddBook name author] ∧
    (addBook repository name author s).1.books = s.books ∧
    (addBook repository name author s).1.viewType = s.viewType ∧
    (addBook repository name author s).1.privateBooksCount = s.privateBooksCount ∧
    (addBook repository name author s).1.isLoading = false := by
  have hcond : ¬(name = "" ∨ author = "") := not_or.mpr ⟨hn, ha⟩
  cases haddo : repository.addBook with
  | resolveOk b =>
      cases b
      · simp [addBook, if_neg hcond, haddo, runEvents, repoCalls]
      · exact absurd haddo hfail
  | throwErr t =>
      simp [addBook, if_neg hcond, haddo, runEvents, repoCalls]

/-- Witness for C5 against a repository whose add resolves to false. -/
theorem addBook_failure_no_reload_witness :
    (addBook repoAddFails "x" "y" initialState).1.error =
      some "Repository returned false, book might not have been added." :=
  (addBook_failure_no_reload repoAddFails "x" "y" initialState
    (by decide) (by decide) (by decide)).1 rfl

/-- Counterexample for C7: addBook with an empty name is a load/add
operation input on which isLoading is never assigned at all, so the
claimed unconditional false-to-true toggle at the start of every such
operation fails on the validation-failure path. -/
theorem addBook_empty_no_loading_toggle :
    ¬ ((loadingEvents (addBook repoA "" "x" initialState).2).head? = some true) := by
  decide

/-- C7 amended: loadBooks, for every state and repository outcome, assigns
isLoading exactly true then false and ends with isLoading false; addBook
on inputs passing validation (non-empty name and author) first assigns
isLoading true, last assigns it false, and ends with isLoading false — so
no completed operation leaves a perpetual loading state.  The
validation-failure path of addBook returns before the toggle. -/
theorem isLoading_toggle_discipline (repository : Repo) (name author : String)
    (s : StoreState) :
    loadingEvents (loadBooks repository s).2 = [true, false] ∧
    (loadBooks repository s).1.isLoading = false ∧
    (name ≠ "" → author ≠ "" →
      (loadingEvents (addBook repository name author s).2).head? = some true ∧
      (loadingEvents (addBook repository name author s).2).getLast? = some false ∧
      (addBook repository name author s).1.isLoading = false) := by
  refine ⟨loadingEvents_loadBooks repository s, loadBooks_isLoading repository s, ?_⟩
  intro hn ha
  have hcond : ¬(name = "" ∨ author = "") := not_or.mpr ⟨hn, ha⟩
  cases haddo : repository.addBook with
  | resolveOk b =>
      cases b
      · simp [addBook, if_neg hcond, haddo, loadingEvents]
      · simp [addBook, if_neg hcond, haddo, loadingEvents_append, loadingEvents,
          loadingEvents_loadBooks, trace_loadPrivateBooksCount]
  | throwErr t =>
      simp [addBook, if_neg hcond, haddo, loadingEvents]

/-- Witness for C7 amended: a valid add against repoA toggles isLoading on
first and off last and completes not loading. -/
theorem isLoading_toggle_discipline_witness :
    (loadingEvents (addBook repoA "n" "a" initialState).2).head? = some true ∧
    (loadingEvents (addBook repoA "n" "a" initialState).2).getLast? = some false ∧
    (addBook repoA "n" "a" initialState).1.isLoading = false :=
  (isLoading_toggle_discipline repoA "n" "a" initialState).2.2
    (by decide) (by decide)

/-- Counterexample for C8: loadPrivateBooksCount, run on a state holding a
leftover error message, never assigns error and leaves the old message in
place, so the claim that every subsequent operation resets error to null
at its start fails for this operation. -/
theorem loadPrivateBooksCount_keeps_stale_error :
    ¬ ((errorEvents (loadPrivateBooksCount repoA staleErrorState).2).head? =
        some none) ∧
    (loadPrivateBooksCount repoA staleErrorState).1.error =
      some "previous failure" := by
  decide

/-- C8 amended: loadBooks always assigns error := null first; addBook on
inputs passing validation assigns error := null first; but
loadPrivateBooksCount never assigns error and leaves it unchanged, and
setViewType clears error only indirectly through the loadBooks it
triggers on an accepted mode change — with the current mode it leaves
error unchanged. -/
theorem error_clearing_discipline (repository : Repo) (name author t : String)
    (s : StoreState) :
    (errorEvents (loadBooks repository s).2).head? = some none ∧
    (name ≠ "" → author ≠ "" →
      (errorEvents (addBook repository name author s).2).head? = some none) ∧
    errorEvents (loadPrivateBooksCount repository s).2 = [] ∧
    (loadPrivateBooksCount repository s).1.error = s.error ∧
    ((t = "all" ∨ t = "private") → s.viewType ≠ t →
      (errorEvents (setViewType repository t s).2).head? = some none) ∧
    (s.viewType = t → (setViewType repository t s).1.error = s.error) := by
  refine ⟨errorEvents_loadBooks_head repository s, ?_, ?_,
    (loadPrivateBooksCount_frame repository s).1, ?_, ?_⟩
  · intro hn ha
    have hcond : ¬(name = "" ∨ author = "") := not_or.mpr ⟨hn, ha⟩
    cases haddo : repository.addBook with
    | resolveOk b =>
        cases b
        · simp [addBook, if_neg hcond, haddo, errorEvents]
        · simp [addBook, if_neg hcond, haddo, errorEvents_append, errorEvents]
    | throwErr t2 =>
        simp [addBook, if_neg hcond, haddo, errorEvents]
  · rw [trace_loadPrivateBooksCount]
    rfl
  · intro hv hne
    simp only [setViewType, if_pos hv, if_pos hne]
    rw [errorEvents_append, trace_loadPrivateBooksCount]
    simp [errorEvents, errorEvents_loadBooks_head]
  · intro h
    rw [setViewType_self repository t s h]

/-- Witness for C8 amended: a valid add on a state with a stale error
assigns error := null first. -/
theorem error_clearing_discipline_witness :
    (errorEvents (addBook repoA "n" "a" staleErrorState).2).head? = some none :=
  (error_clearing_discipline repoA "n" "a" "all" staleErrorState).2.1
    (by decide) (by decide)

/-- Counterexample for C9: two add calls two milliseconds apart can draw
random offsets making the generated identifiers collide, so the ids are
not distinct for every two add calls within a running process. -/
theorem repoAddBook_id_collision :
    (repoAddBook "a" "b" 1000 5 BookAddDto.nullDto).1.id =
      (repoAddBook "c" "d" 1002 3 BookAddDto.nullDto).1.id ∧
    (0:ℚ) ≤ 5 ∧ (5:ℚ) < 1000 ∧ (0:ℚ) ≤ 3 ∧ (3:ℚ) < 1000 := by
  refine ⟨?_, by norm_num, by norm_num, by norm_num, by norm_num⟩
  norm_num [repoAddBook, generateUniqueId]

/-- C9 amended: the repository addBook posts to "/" a body holding the
freshly generated id together with the name and the author, where the id
is the floor of the current time plus the random offset (intended unique
per call, but not guaranteed distinct); the call resolves to true exactly
when the response body is a truthy object whose status field is "ok" (a
null body or any other status gives false). -/
theorem repoAddBook_spec (name author : String) (now : Nat) (rand1000 : ℚ)
    (resp : BookAddDto) :
    (repoAddBook name author now rand1000 resp).1.path = "/" ∧
    (repoAddBook name author now rand1000 resp).1.name = name ∧
    (repoAddBook name author now rand1000 resp).1.author = author ∧
    (repoAddBook name author now rand1000 resp).1.id =
      Int.floor ((now : ℚ) + rand1000) ∧
    ((repoAddBook name author now rand1000 resp).2 = true ↔
      resp = BookAddDto.objDto (some "ok")) := by
  refine ⟨rfl, rfl, rfl, rfl, ?_⟩
  cases resp with
  | nullDto => simp [repoAddBook, dtoAccepted]
  | objDto st =>
      cases st with
      | none => simp [repoAddBook, dtoAccepted]
      | some v => simp [repoAddBook, dtoAccepted]
